import Mathlib

/-!
# Verification of monkit's `present` path dispatcher

A shallow embedding of `src/present/path.go` from the monkit repository:
the path dispatcher `FromRequest`, the trace span-matcher construction,
the `shift` path-splitting helper, and the output-buffering wrapper that
`FromRequest` installs around every successful producer.

External collaborators are modelled at their interface:
* the registry is a list of known functions (`Registry`);
* Go's `regexp` package is a parameter (`RegexEngine`): a compiler from
  pattern strings to either an error message or a matcher on strings;
* Go's `strconv.ParseUint`/`ParseBool` are translated directly;
* Go's `bufio.Writer` (default buffer size 4096) is translated with
  all-or-nothing underlying sink writes;
* the concrete renderers (`SpansText`, `TraceQuerySVG`, ...) are opaque:
  the dispatcher only chooses one, so they are represented by the
  `ProducerDesc` tag that records which renderer was bound to which
  arguments.
-/

set_option autoImplicit false

namespace Monkit

/-- A monitored function (`*monkit.Func`). `id` stands for pointer identity
(two distinct registered functions may share a full name); `fullName` is
`Func.FullName()`. -/
structure Func where
  id : Nat
  fullName : String
deriving DecidableEq

/-- A span (`*monkit.Span`): `fn` is `s.Func()`, `traceId` is
`s.Trace().Id()`, a Go `int64`. -/
structure Span where
  fn : Func
  traceId : Int

/-- The registry, exposed to this layer only through `reg.Funcs` enumeration
of the currently known functions. -/
abbrev Registry := List Func

/-- `url.Values`, consulted only through `Get`: an association list from key
to value (first binding wins, missing key reads as `""`). -/
abbrev Values := List (String × String)

/-- `url.Values.Get`: the value of the first binding of `k`, or `""`. -/
def Values.Get (q : Values) (k : String) : String :=
  match q.find? (fun p => p.1 == k) with
  | some p => p.2
  | none => ""

/-- Go's `regexp.Compile`, abstract: a pattern either fails to compile with
an error message or yields a matcher `String → Bool` (`re.MatchString`). -/
abbrev RegexEngine := String → Except String (String → Bool)

/-- The two error classes declared at the top of `path.go`. -/
inductive Err where
  | badRequest (msg : String)
  | notFound (msg : String)
deriving DecidableEq

/-- Whether an error is of the `BadRequest` class. -/
def Err.isBadRequest : Err → Bool
  | .badRequest _ => true
  | .notFound _ => false

/-- Whether a dispatch outcome is a `NotFound` error. -/
def isNotFoundResult {α : Type} : Except Err α → Bool
  | .error (.notFound _) => true
  | _ => false

/-- Go's `%#v` rendering of a string: the string in double quotes. (The
claims only ever evaluate this on strings without characters that `%#v`
would escape.) -/
def goQuote (s : String) : String := "\"" ++ s ++ "\""

/-- `strconv.ParseBool`: accepts exactly these thirteen-minus-one literal
spellings, anything else is a syntax error. -/
def parseBool (s : String) : Option Bool :=
  match s with
  | "1" | "t" | "T" | "TRUE" | "true" | "True" => some true
  | "0" | "f" | "F" | "FALSE" | "false" | "False" => some false
  | _ => none

/-- The `Error()` text of the `strconv.ParseBool` syntax error. -/
def parseBoolErrMsg (s : String) : String :=
  "strconv.ParseBool: parsing " ++ goQuote s ++ ": invalid syntax"

/-- The numeric value of one hexadecimal digit, if it is one. -/
def hexDigitVal (c : Char) : Option Nat :=
  if '0' ≤ c ∧ c ≤ '9' then some (c.toNat - '0'.toNat)
  else if 'a' ≤ c ∧ c ≤ 'f' then some (c.toNat - 'a'.toNat + 10)
  else if 'A' ≤ c ∧ c ≤ 'F' then some (c.toNat - 'A'.toNat + 10)
  else none

/-- `strconv.ParseUint(s, 16, 64)`: fails on the empty string, on any
non-hex-digit character (with base 16 passed explicitly Go allows no `0x`
prefix, no underscores and no sign), and on overflow past `2^64 - 1`;
otherwise the value of the hex digits. -/
def parseHexUint64 (s : String) : Option Nat :=
  if s.data = [] then none
  else if s.data.all (fun c => (hexDigitVal c).isSome) then
    let v := s.data.foldl (fun n c => n * 16 + (hexDigitVal c).getD 0) 0
    if v < 2 ^ 64 then some v else none
  else none

/-- Go's `int64(u)` conversion of a `uint64`: reinterpretation of the bit
pattern, i.e. subtraction of `2^64` for values at or above `2^63`. -/
def int64ofUint64 (n : Nat) : Int :=
  if n < 2 ^ 63 then (n : Int) else (n : Int) - 2 ^ 64

/-- Which renderer a successful dispatch bound, together with the arguments
the dispatcher closed over (the `prefix` query value for stats, the span
matcher for trace). The renderers themselves are external collaborators. -/
inductive ProducerDesc where
  | spansText
  | spansDot
  | spansJSON
  | funcsText
  | funcsDot
  | funcsJSON
  | filteredStatsText (pfx : String)
  | filteredStatsJSON (pfx : String)
  | traceQuerySVG (matcher : Span → Bool)
  | traceQueryJSON (matcher : Span → Bool)

/-- Lines 141–174 of `path.go`: the function matcher. `fnMatcher` starts as
match-everything; a present `regex` compiles (else Bad Request) and becomes
a live test of the full name; `preselect` defaults to true when absent and
otherwise must parse as a boolean (else Bad Request); with preselection the
currently known functions matching the regex are snapshotted (Bad Request
when none do) and the matcher becomes membership in that snapshot. -/
def buildFnMatcher (reg : Registry) (rc : RegexEngine) (q : Values) :
    Except Err (Func → Bool) :=
  let regexStr := Values.Get q "regex"
  if regexStr = "" then .ok (fun _ => true)
  else
    match rc regexStr with
    | .error msg =>
        .error (.badRequest ("invalid regex " ++ goQuote regexStr ++ ": " ++ msg))
    | .ok re =>
      let fnMatcher := fun (f : Func) => re f.fullName
      let preselectStr := Values.Get q "preselect"
      match (if preselectStr = "" then some true else parseBool preselectStr) with
      | none =>
          .error (.badRequest ("invalid preselect " ++ goQuote preselectStr ++ ": "
            ++ parseBoolErrMsg preselectStr))
      | some false => .ok fnMatcher
      | some true =>
        let funcs := reg.filter fnMatcher
        if funcs.isEmpty then
          .error (.badRequest "regex preselect matches 0 functions")
        else .ok (fun f => decide (f ∈ funcs))

/-- Lines 134–187 of `path.go`: the span matcher. At least one of `regex`
and `trace_id` must be present (else Bad Request); the function matcher is
built first; an absent `trace_id` leaves the span matcher as the function
matcher on the span's function, a present one must parse as hex uint64
(else Bad Request) and adds an equality test of the span's trace id against
the Go `int64` reinterpretation of the parsed value. -/
def buildSpanMatcher (reg : Registry) (rc : RegexEngine) (q : Values) :
    Except Err (Span → Bool) :=
  let regexStr := Values.Get q "regex"
  let traceIdStr := Values.Get q "trace_id"
  if regexStr = "" ∧ traceIdStr = "" then
    .error (.badRequest "at least one of 'regex' or 'trace_id' query parameters required")
  else
    match buildFnMatcher reg rc q with
    | .error e => .error e
    | .ok fnMatcher =>
      if traceIdStr = "" then .ok (fun s => fnMatcher s.fn)
      else
        match parseHexUint64 traceIdStr with
        | none =>
            .error (.badRequest ("trace_id expected to be hex unsigned 64 bit number: "
              ++ goQuote traceIdStr))
        | some traceId =>
            .ok (fun s => decide (s.traceId = int64ofUint64 traceId) && fnMatcher s.fn)

/-- `strings.Index(path, "/")`: index of the first slash, if any. -/
def indexOfSlash : List Char → Option Nat
  | [] => none
  | c :: rest => if c == '/' then some 0 else (indexOfSlash rest).map (· + 1)

/-- Lines 203–210 of `path.go`: strip leading slashes
(`strings.TrimLeft(path, "/")`), then split at the first remaining slash;
without one the whole rest is the first segment and the remainder is empty,
with one the remainder keeps its leading slash. -/
def shift (path : String) : String × String :=
  let p := path.data.dropWhile (fun c => c == '/')
  match indexOfSlash p with
  | none => (⟨p⟩, "")
  | some i => (⟨p.take i⟩, ⟨p.drop i⟩)

/-- Lines 98–201 of `path.go`: the dispatcher, minus the buffering wrapper
installed by the `defer` (modelled separately by `buffered` and
`FromRequestBuffered`). Two `shift`s give the resource and subformat; each
resource maps its accepted subformats to a renderer and content type; the
trace resource builds the span matcher before looking at the subformat; all
fall-throughs reach the final Not Found carrying the original path. -/
def FromRequest (reg : Registry) (path : String) (q : Values) (rc : RegexEngine) :
    Except Err (ProducerDesc × String) :=
  let first := (shift path).1
  let second := (shift (shift path).2).1
  if first = "ps" then
    if second = "" ∨ second = "text" then
      .ok (.spansText, "text/plain; charset=utf-8")
    else if second = "dot" then
      .ok (.spansDot, "text/plain; charset=utf-8")
    else if second = "json" then
      .ok (.spansJSON, "application/json; charset=utf-8")
    else .error (.notFound ("path not found: " ++ path))
  else if first = "funcs" then
    if second = "" ∨ second = "text" then
      .ok (.funcsText, "text/plain; charset=utf-8")
    else if second = "dot" then
      .ok (.funcsDot, "text/plain; charset=utf-8")
    else if second = "json" then
      .ok (.funcsJSON, "application/json; charset=utf-8")
    else .error (.notFound ("path not found: " ++ path))
  else if first = "stats" then
    if second = "" ∨ second = "text" then
      .ok (.filteredStatsText (Values.Get q "prefix"), "text/plain; charset=utf-8")
    else if second = "json" then
      .ok (.filteredStatsJSON (Values.Get q "prefix"), "application/json; charset=utf-8")
    else .error (.notFound ("path not found: " ++ path))
  else if first = "trace" then
    match buildSpanMatcher reg rc q with
    | .error e => .error e
    | .ok m =>
      if second = "svg" then
        .ok (.traceQuerySVG m, "image/svg+xml; charset=utf-8")
      else if second = "json" then
        .ok (.traceQueryJSON m, "application/json; charset=utf-8")
      else .error (.notFound ("path not found: " ++ path))
  else .error (.notFound ("path not found: " ++ path))

/-- Whether the span-matcher construction for this request succeeds. -/
def spanMatcherOk (reg : Registry) (rc : RegexEngine) (q : Values) : Bool :=
  match buildSpanMatcher reg rc q with
  | .ok _ => true
  | .error _ => false

/-- `bufio.NewWriter`'s default buffer size (`bufio.defaultBufSize`). -/
def bufCap : Nat := 4096

/-- An output sink (`io.Writer`): some state plus a write operation that
either accepts a whole byte slice or fails with an error (all-or-nothing,
the well-behaved case of the `io.Writer` contract). -/
structure SinkOps (σ : Type) where
  write : σ → List Nat → σ × Option String

/-- The state of a `bufio.Writer` over a sink: the sink state, the buffered
bytes not yet written through (`b.buf[:b.n]`), and the sticky error
(`b.err`). -/
structure BufState (σ : Type) where
  sink : σ
  buf : List Nat
  err : Option String

/-- An inner producer's interaction with the writer it is handed: a
straight-line sequence of writes ending in success or in an error of its
own. (Producers abort on the first write error, per the `Result` contract.) -/
inductive ProdProg where
  | done
  | fail (e : String)
  | write (bs : List Nat) (k : ProdProg)

/-- All bytes the producer writes when no write fails. -/
def progWrites : ProdProg → List Nat
  | .done => []
  | .fail _ => []
  | .write bs k => bs ++ progWrites k

/-- The producer's own outcome when no write fails. -/
def progOutcome : ProdProg → Option String
  | .done => none
  | .fail e => some e
  | .write _ k => progOutcome k

/-- `bufio.Writer.Write` with all-or-nothing sink writes: with a sticky
error nothing happens; a slice that fits the available space is only
buffered; a larger slice on an empty buffer goes straight to the sink; a
larger slice on a partial buffer first tops the buffer up and flushes it,
then the remainder is buffered if it fits and written straight through
otherwise. -/
def bufWrite {σ : Type} (ops : SinkOps σ) : BufState σ → List Nat → BufState σ
  | ⟨sink, buf, some e⟩, _ => ⟨sink, buf, some e⟩
  | ⟨sink, buf, none⟩, p =>
    if p.length ≤ bufCap - buf.length then ⟨sink, buf ++ p, none⟩
    else if buf.isEmpty then
      match ops.write sink p with
      | (s, none) => ⟨s, buf, none⟩
      | (s, some e) => ⟨s, buf, some e⟩
    else
      match ops.write sink (buf ++ p.take (bufCap - buf.length)) with
      | (s, some e) => ⟨s, buf ++ p.take (bufCap - buf.length), some e⟩
      | (s, none) =>
        let p2 := p.drop (bufCap - buf.length)
        if p2.length ≤ bufCap then ⟨s, p2, none⟩
        else
          match ops.write s p2 with
          | (s2, none) => ⟨s2, [], none⟩
          | (s2, some e) => ⟨s2, [], some e⟩

/-- `bufio.Writer.Flush`: a sticky error is returned as is; an empty buffer
is a no-op; otherwise the buffered bytes are written to the sink, a failure
becoming the sticky error. -/
def bufFlush {σ : Type} (ops : SinkOps σ) : BufState σ → BufState σ × Option String
  | ⟨sink, buf, some e⟩ => (⟨sink, buf, some e⟩, some e)
  | ⟨sink, buf, none⟩ =>
    if buf.isEmpty then (⟨sink, buf, none⟩, none)
    else
      match ops.write sink buf with
      | (s, none) => (⟨s, [], none⟩, none)
      | (s, some e) => (⟨s, buf, some e⟩, some e)

/-- Running a producer against the buffered writer: each write goes through
`bufWrite`, and the producer stops with the write error if one occurs. -/
def runOnBuf {σ : Type} (ops : SinkOps σ) : ProdProg → BufState σ → BufState σ × Option String
  | .done, st => (st, none)
  | .fail e, st => (st, some e)
  | .write bs k, st =>
    let st2 := bufWrite ops st bs
    match st2.err with
    | none => runOnBuf ops k st2
    | some e => (st2, some e)

/-- Lines 86–95 of `path.go`: the wrapper the `defer` installs around every
successful producer. A fresh `bufio.Writer` is put in front of the sink,
the inner producer runs against it, an inner error is returned without
flushing, and otherwise `Flush` runs and its error is the overall error. -/
def buffered {σ : Type} (ops : SinkOps σ) (prog : ProdProg) (w : σ) : σ × Option String :=
  match runOnBuf ops prog ⟨w, [], none⟩ with
  | (st, some e) => (st.sink, some e)
  | (st, none) =>
    match bufFlush ops st with
    | (st2, e2) => (st2.sink, e2)

/-- Lines 81–96 of `path.go` composed with the dispatch: on success the
producer the dispatcher chose (rendered by the external renderer `render`)
is replaced by its `buffered` wrapping; errors pass through unchanged. -/
def FromRequestBuffered {σ : Type} (ops : SinkOps σ) (render : ProducerDesc → ProdProg)
    (reg : Registry) (path : String) (q : Values) (rc : RegexEngine) :
    Except Err ((σ → σ × Option String) × String) :=
  match FromRequest reg path q rc with
  | .error e => .error e
  | .ok (d, ct) => .ok (buffered ops (render d), ct)

/-- A regex engine with no compilable patterns; used where the regex is
never consulted. -/
def rcNone : RegexEngine := fun _ => .error "engine unavailable"

/-- The matcher an engine would compile `"^Foo$"` to. -/
def reFoo : String → Bool := fun s => s == "Foo"

/-- The matcher an engine would compile `".*"` to. -/
def reAll : String → Bool := fun _ => true

/-- A small concrete regex engine understanding the two patterns the spec's
examples use. -/
def rcTable : RegexEngine := fun r =>
  if r = "^Foo$" then .ok reFoo
  else if r = ".*" then .ok reAll
  else .error "unsupported pattern"

/-- A well-behaved sink that accumulates every byte and never fails. -/
def accSinkOps : SinkOps (List Nat) :=
  ⟨fun s bs => (s ++ bs, none)⟩

theorem indexOfSlash_none_split {l : List Char} (h : indexOfSlash l = none) :
    l.takeWhile (fun c => !(c == '/')) = l ∧ l.dropWhile (fun c => !(c == '/')) = [] := by
  induction l with
  | nil => exact ⟨rfl, rfl⟩
  | cons c rest ih =>
    cases hc : (c == '/') with
    | true => simp [indexOfSlash, hc] at h
    | false =>
      simp only [indexOfSlash, hc, Bool.false_eq_true, if_false, Option.map_eq_none'] at h
      have hr := ih h
      simp [List.takeWhile_cons, List.dropWhile_cons, hc, hr.1, hr.2]

theorem indexOfSlash_some_split {l : List Char} {i : Nat} (h : indexOfSlash l = some i) :
    l.take i = l.takeWhile (fun c => !(c == '/')) ∧
    l.drop i = l.dropWhile (fun c => !(c == '/')) := by
  induction l generalizing i with
  | nil => simp [indexOfSlash] at h
  | cons c rest ih =>
    cases hc : (c == '/') with
    | true =>
      simp only [indexOfSlash, hc, if_true, Option.some.injEq] at h
      subst h
      simp [List.takeWhile_cons, List.dropWhile_cons, hc]
    | false =>
      simp only [indexOfSlash, hc, Bool.false_eq_true, if_false, Option.map_eq_some'] at h
      obtain ⟨j, hj, hi⟩ := h
      subst hi
      have hr := ih hj
      simp [List.takeWhile_cons, List.dropWhile_cons, hc, hr.1, hr.2]

/-- Claim C6: `shift` strips leading slashes and splits at the first
remaining slash, returning the first segment (slash-free) and the
remainder including its leading slash; in particular
`shift "/a/b/c" = ("a", "/b/c")`, `shift "a" = ("a", "")` and
`shift "" = ("", "")`. -/
theorem claim_C6 (s : String) :
    (shift s).1.data = (s.data.dropWhile (fun c => c == '/')).takeWhile (fun c => !(c == '/')) ∧
    (shift s).2.data = (s.data.dropWhile (fun c => c == '/')).dropWhile (fun c => !(c == '/')) ∧
    shift "/a/b/c" = ("a", "/b/c") ∧ shift "a" = ("a", "") ∧ shift "" = ("", "") := by
  refine ⟨?_, ?_, rfl, rfl, rfl⟩ <;>
  · unfold shift
    cases hidx : indexOfSlash (s.data.dropWhile (fun c => c == '/')) with
    | none =>
      have hr := indexOfSlash_none_split hidx
      simp [hidx, hr.1, hr.2]
    | some i =>
      have hr := indexOfSlash_some_split hidx
      simp [hidx, hr.1, hr.2]

theorem buildFnMatcher_error_badRequest (reg : Registry) (rc : RegexEngine) (q : Values)
    (e : Err) (h : buildFnMatcher reg rc q = .error e) : e.isBadRequest = true := by
  simp only [buildFnMatcher] at h
  split at h
  · simp at h
  · split at h
    · injection h with h2
      subst h2
      rfl
    · split at h
      · injection h with h2
        subst h2
        rfl
      · simp at h
      · split at h
        · injection h with h2
          subst h2
          rfl
        · simp at h

theorem buildSpanMatcher_error_badRequest (reg : Registry) (rc : RegexEngine) (q : Values)
    (e : Err) (h : buildSpanMatcher reg rc q = .error e) : e.isBadRequest = true := by
  simp only [buildSpanMatcher] at h
  split at h
  · injection h with h2
    subst h2
    rfl
  · split at h
    next e' heq =>
      injection h with h2
      subst h2
      exact buildFnMatcher_error_badRequest reg rc q _ heq
    next fm heq =>
      split at h
      · simp at h
      · split at h
        · injection h with h2
          subst h2
          rfl
        · simp at h

theorem fromRequest_trace_error (reg : Registry) (rc : RegexEngine) (q : Values) (path : String)
    (e : Err) (h1 : (shift path).1 = "trace") (h2 : buildSpanMatcher reg rc q = .error e) :
    FromRequest reg path q rc = .error e := by
  simp [FromRequest, h1, h2]

/-- Claim C2: when the first path segment is `trace`, the span matcher is
built from the query parameters before the subformat is consulted: a
matcher-construction failure makes dispatch return that error (a
`BadRequest`, never a `NotFound`), regardless of the second segment. -/
theorem claim_C2 (reg : Registry) (rc : RegexEngine) (q : Values) (path : String) (e : Err)
    (h1 : (shift path).1 = "trace") (h2 : buildSpanMatcher reg rc q = .error e) :
    FromRequest reg path q rc = .error e ∧ e.isBadRequest = true :=
  ⟨fromRequest_trace_error reg rc q path e h1 h2,
   buildSpanMatcher_error_badRequest reg rc q e h2⟩

theorem claim_C2_witness :
    FromRequest [] "/trace/json" [] rcNone =
      .error (.badRequest "at least one of 'regex' or 'trace_id' query parameters required") ∧
    (Err.badRequest "at least one of 'regex' or 'trace_id' query parameters required").isBadRequest
      = true :=
  claim_C2 [] rcNone [] "/trace/json" _ rfl rfl

theorem claim_C3_counterexample :
    FromRequest [] "/trace" [] rcNone =
      .error (.badRequest "at least one of 'regex' or 'trace_id' query parameters required") ∧
    isNotFoundResult (FromRequest [] "/trace" [] rcNone) = false :=
  ⟨rfl, rfl⟩

/-- Claim C3 (amended): an unrecognized resource fails with Not Found
carrying the original path; so does a known resource with an unrecognized
subformat; and `trace` with a missing or unrecognized subformat fails with
Not Found provided the span matcher was built successfully (with both
`regex` and `trace_id` absent, dispatch instead fails with Bad Request
before the subformat is consulted). -/
theorem claim_C3 (reg : Registry) (q : Values) (rc : RegexEngine) (path : String) :
    ((shift path).1 ≠ "ps" → (shift path).1 ≠ "funcs" → (shift path).1 ≠ "stats" →
      (shift path).1 ≠ "trace" →
      FromRequest reg path q rc = .error (.notFound ("path not found: " ++ path))) ∧
    ((shift path).1 = "ps" →
      (shift (shift path).2).1 ≠ "" → (shift (shift path).2).1 ≠ "text" →
      (shift (shift path).2).1 ≠ "dot" → (shift (shift path).2).1 ≠ "json" →
      FromRequest reg path q rc = .error (.notFound ("path not found: " ++ path))) ∧
    ((shift path).1 = "funcs" →
      (shift (shift path).2).1 ≠ "" → (shift (shift path).2).1 ≠ "text" →
      (shift (shift path).2).1 ≠ "dot" → (shift (shift path).2).1 ≠ "json" →
      FromRequest reg path q rc = .error (.notFound ("path not found: " ++ path))) ∧
    ((shift path).1 = "stats" →
      (shift (shift path).2).1 ≠ "" → (shift (shift path).2).1 ≠ "text" →
      (shift (shift path).2).1 ≠ "json" →
      FromRequest reg path q rc = .error (.notFound ("path not found: " ++ path))) ∧
    (∀ m : Span → Bool, (shift path).1 = "trace" → buildSpanMatcher reg rc q = .ok m →
      (shift (shift path).2).1 ≠ "svg" → (shift (shift path).2).1 ≠ "json" →
      FromRequest reg path q rc = .error (.notFound ("path not found: " ++ path))) := by
  refine ⟨?_, ?_, ?_, ?_, ?_⟩
  · intro h1 h2 h3 h4
    simp [FromRequest, h1, h2, h3, h4]
  · intro h1 hs1 hs2 hs3 hs4
    simp [FromRequest, h1, hs1, hs2, hs3, hs4]
  · intro h1 hs1 hs2 hs3 hs4
    simp [FromRequest, h1, hs1, hs2, hs3, hs4]
  · intro h1 hs1 hs2 hs3
    simp [FromRequest, h1, hs1, hs2, hs3]
  · intro m h1 hm hs1 hs2
    simp [FromRequest, h1, hm, hs1, hs2]

theorem claim_C3_witness :
    FromRequest [] "/bogus" [] rcNone = .error (.notFound "path not found: /bogus") ∧
    FromRequest [] "/ps/bogus" [] rcNone = .error (.notFound "path not found: /ps/bogus") ∧
    FromRequest [] "/trace" [("trace_id", "ff")] rcNone =
      .error (.notFound "path not found: /trace") := by
  refine ⟨?_, ?_, ?_⟩
  · exact (claim_C3 [] [] rcNone "/bogus").1 (by decide) (by decide) (by decide) (by decide)
  · exact (claim_C3 [] [] rcNone "/ps/bogus").2.1 (by decide) (by decide) (by decide)
      (by decide) (by decide)
  · exact (claim_C3 [] [("trace_id", "ff")] rcNone "/trace").2.2.2.2 _ (by decide) rfl
      (by decide) (by decide)

theorem parseHexUint64_lt {t : String} {v : Nat} (h : parseHexUint64 t = some v) :
    v < 2 ^ 64 := by
  simp only [parseHexUint64] at h
  split at h
  · simp at h
  · split at h
    · split at h
      · injection h with h2
        subst h2
        assumption
      · simp at h
    · simp at h

theorem parseHexUint64_ne_empty {t : String} {v : Nat} (h : parseHexUint64 t = some v) :
    t ≠ "" := by
  intro he
  subst he
  simp [parseHexUint64] at h

/-- Claim C4: a present `trace_id` is parsed as hex uint64; on a parse
failure dispatch (here at first segment `trace`, with the function-matcher
stage succeeding) fails with Bad Request citing the offending string; on
success the span matcher is the conjunction of trace-id equality and the
function matcher on the span's function, which with no regex reduces to
pure trace-id equality. -/
theorem claim_C4 (reg : Registry) (rc : RegexEngine) (q : Values) (path : String)
    (fm : Func → Bool)
    (h1 : (shift path).1 = "trace")
    (h2 : Values.Get q "trace_id" ≠ "")
    (h3 : buildFnMatcher reg rc q = .ok fm) :
    match parseHexUint64 (Values.Get q "trace_id") with
    | none =>
        FromRequest reg path q rc = .error (.badRequest
          ("trace_id expected to be hex unsigned 64 bit number: "
            ++ goQuote (Values.Get q "trace_id")))
    | some v =>
        buildSpanMatcher reg rc q =
          .ok (fun s => decide (s.traceId = int64ofUint64 v) && fm s.fn) ∧
        (Values.Get q "regex" = "" →
          ∀ s : Span, (decide (s.traceId = int64ofUint64 v) && fm s.fn)
            = decide (s.traceId = int64ofUint64 v)) := by
  cases hp : parseHexUint64 (Values.Get q "trace_id") with
  | none =>
    have hb : buildSpanMatcher reg rc q = .error (.badRequest
        ("trace_id expected to be hex unsigned 64 bit number: "
          ++ goQuote (Values.Get q "trace_id"))) := by
      simp [buildSpanMatcher, h2, h3, hp]
    exact fromRequest_trace_error reg rc q path _ h1 hb
  | some v =>
    constructor
    · simp [buildSpanMatcher, h2, h3, hp]
    · intro hre s
      have hfm : fm = fun _ => true := by
        rw [buildFnMatcher] at h3
        simp only [hre, if_pos] at h3
        injection h3 with h4
        exact h4.symm
      rw [hfm]
      simp

theorem claim_C4_witness :
    (buildSpanMatcher [] rcNone [("trace_id", "ff")]).map
      (fun m => (m ⟨⟨0, "X"⟩, 255⟩, m ⟨⟨1, "Y"⟩, 7⟩)) = .ok (true, false) := by
  have h := claim_C4 [] rcNone [("trace_id", "ff")] "/trace/json" (fun _ => true)
    rfl (by decide) rfl
  rw [h.1]
  rfl

/-- Claim C10: a hex `trace_id` with value at or above `2^63` parses
successfully, and because the code compares the span's signed 64-bit trace
identifier against the Go `int64` reinterpretation of the parsed unsigned
value, the span matcher (with no regex) matches exactly the spans whose
trace identifier equals `v - 2^64`, a negative number. -/
theorem claim_C10 (reg : Registry) (rc : RegexEngine) (q : Values) (t : String) (v : Nat)
    (h1 : Values.Get q "trace_id" = t) (h2 : Values.Get q "regex" = "")
    (h3 : parseHexUint64 t = some v) (h4 : 2 ^ 63 ≤ v) :
    buildSpanMatcher reg rc q = .ok (fun s => decide (s.traceId = (v : Int) - 2 ^ 64)) ∧
    (v : Int) - 2 ^ 64 < 0 := by
  have ht : t ≠ "" := parseHexUint64_ne_empty h3
  have hv : v < 2 ^ 64 := parseHexUint64_lt h3
  have hfn : buildFnMatcher reg rc q = .ok (fun _ => true) := by
    simp [buildFnMatcher, h2]
  have hi : int64ofUint64 v = (v : Int) - 2 ^ 64 := by
    unfold int64ofUint64
    rw [if_neg]
    omega
  constructor
  · have hb : buildSpanMatcher reg rc q =
        .ok (fun s => decide (s.traceId = int64ofUint64 v) && (fun (_ : Func) => true) s.fn) := by
      simp [buildSpanMatcher, h1, ht, hfn, h3]
    rw [hb]
    congr 1
    funext s
    rw [hi]
    simp
  · have hv' : (v : Int) < 2 ^ 64 := by exact_mod_cast hv
    omega

theorem claim_C10_witness :
    (buildSpanMatcher [] rcNone [("trace_id", "ffffffffffffffff")]).map
      (fun m => (m ⟨⟨0, "F"⟩, -1⟩, m ⟨⟨0, "F"⟩, 1⟩)) = .ok (true, false) := by
  have h := claim_C10 [] rcNone [("trace_id", "ffffffffffffffff")] "ffffffffffffffff"
    18446744073709551615 rfl rfl rfl (by decide)
  rw [h.1]
  rfl

/-- Claim C5: with a regex given and preselect in effect (absent or parsed
true) and a nonempty preselection, the function matcher is membership in
the fixed snapshot of registry functions whose full name matches the
regex, so a function not in the registry at build time never matches; with
`preselect=false` the matcher tests the compiled regex against the
function's full name live, so any function whose name satisfies the regex
matches, registered or not. -/
theorem claim_C5 (reg : Registry) (rc : RegexEngine) (q : Values) (r : String)
    (re : String → Bool)
    (h1 : Values.Get q "regex" = r) (h2 : r ≠ "") (h3 : rc r = .ok re) :
    ((Values.Get q "preselect" = "" ∨ parseBool (Values.Get q "preselect") = some true) →
      (reg.filter (fun f => re f.fullName)).isEmpty = false →
      buildFnMatcher reg rc q =
        .ok (fun f => decide (f ∈ reg.filter (fun g => re g.fullName))) ∧
      ∀ f : Func, f ∉ reg → decide (f ∈ reg.filter (fun g => re g.fullName)) = false) ∧
    (parseBool (Values.Get q "preselect") = some false →
      buildFnMatcher reg rc q = .ok (fun f => re f.fullName)) := by
  constructor
  · intro hp hne
    have hsel : (if Values.Get q "preselect" = "" then some true
        else parseBool (Values.Get q "preselect")) = some true := by
      rcases hp with hp | hp
      · rw [if_pos hp]
      · split
        · rfl
        · exact hp
    constructor
    · simp [buildFnMatcher, h1, h2, h3, hsel, hne]
    · intro f hf
      simp only [decide_eq_false_iff_not]
      intro hmem
      exact hf (List.mem_filter.1 hmem).1
  · intro hp
    have hne' : Values.Get q "preselect" ≠ "" := by
      intro he
      rw [he] at hp
      simp [parseBool] at hp
    have hsel : (if Values.Get q "preselect" = "" then some true
        else parseBool (Values.Get q "preselect")) = some false := by
      rw [if_neg hne']
      exact hp
    simp [buildFnMatcher, h1, h2, h3, hsel]

theorem claim_C5_witness :
    (buildFnMatcher [] rcTable [("regex", "^Foo$"), ("preselect", "false")]).map
      (fun fm => fm ⟨0, "Foo"⟩) = .ok true := by
  have h := (claim_C5 [] rcTable [("regex", "^Foo$"), ("preselect", "false")] "^Foo$" reFoo
    rfl (by decide) rfl).2 rfl
  rw [h]
  rfl

/-- Claim C8: with a regex given, `preselect` defaults to true when absent
(same matcher as an explicit `preselect=true`); a present value that does
not parse as a boolean fails with Bad Request echoing the bad value; a
preselection whose snapshot is empty fails with Bad Request ("regex
preselect matches 0 functions"); and any such function-matcher error is
the dispatch error for a `trace` request. -/
theorem claim_C8 (reg : Registry) (rc : RegexEngine) (q : Values) (path : String) (r : String)
    (re : String → Bool)
    (h1 : Values.Get q "regex" = r) (h2 : r ≠ "") (h3 : rc r = .ok re) :
    (∀ q' : Values, Values.Get q "preselect" = "" → Values.Get q' "regex" = r →
      Values.Get q' "preselect" = "true" →
      buildFnMatcher reg rc q = buildFnMatcher reg rc q') ∧
    (∀ v : String, Values.Get q "preselect" = v → v ≠ "" → parseBool v = none →
      buildFnMatcher reg rc q = .error (.badRequest ("invalid preselect " ++ goQuote v ++ ": "
        ++ parseBoolErrMsg v))) ∧
    ((Values.Get q "preselect" = "" ∨ parseBool (Values.Get q "preselect") = some true) →
      (reg.filter (fun f => re f.fullName)).isEmpty = true →
      buildFnMatcher reg rc q = .error (.badRequest "regex preselect matches 0 functions")) ∧
    ((shift path).1 = "trace" → ∀ e : Err, buildFnMatcher reg rc q = .error e →
      FromRequest reg path q rc = .error e) := by
  refine ⟨?_, ?_, ?_, ?_⟩
  · intro q' hp hr' hp'
    have hsel : (if Values.Get q "preselect" = "" then some true
        else parseBool (Values.Get q "preselect")) = some true := by
      rw [if_pos hp]
    have hsel' : (if Values.Get q' "preselect" = "" then some true
        else parseBool (Values.Get q' "preselect")) = some true := by
      rw [hp']
      rfl
    simp only [buildFnMatcher, h1, hr', h2, if_neg, h3, hsel, hsel']
  · intro v hp hv hpb
    have hsel : (if v = "" then some true else parseBool v) = none := by
      rw [if_neg hv]
      exact hpb
    simp [buildFnMatcher, h1, h2, h3, hp, hsel]
  · intro hp hemp
    have hsel : (if Values.Get q "preselect" = "" then some true
        else parseBool (Values.Get q "preselect")) = some true := by
      rcases hp with hp | hp
      · rw [if_pos hp]
      · split
        · rfl
        · exact hp
    simp [buildFnMatcher, h1, h2, h3, hsel, hemp]
  · intro hfirst e he
    have hb : buildSpanMatcher reg rc q = .error e := by
      have hr : Values.Get q "regex" ≠ "" := by
        rw [h1]
        exact h2
      simp [buildSpanMatcher, hr, he]
    exact fromRequest_trace_error reg rc q path e hfirst hb

theorem claim_C8_witness :
    FromRequest [] "/trace/json" [("regex", ".*")] rcTable =
      .error (.badRequest "regex preselect matches 0 functions") := by
  have h := claim_C8 [] rcTable [("regex", ".*")] "/trace/json" ".*" reAll rfl (by decide) rfl
  have he := h.2.2.1 (Or.inl rfl) rfl
  exact h.2.2.2 rfl _ he

theorem claim_C7_counterexample :
    (FromRequest [] "/trace/svg" [("trace_id", "ff")] rcNone).map Prod.snd =
      .ok "image/svg+xml; charset=utf-8" ∧
    (FromRequest [] "/trace/svg" [("trace_id", "ff")] rcNone).map Prod.snd ≠
      .ok "image/svg+xml" := by
  refine ⟨rfl, ?_⟩
  rw [show (FromRequest [] "/trace/svg" [("trace_id", "ff")] rcNone).map Prod.snd =
    .ok "image/svg+xml; charset=utf-8" from rfl]
  simp

/-- Claim C7 (amended): for every (resource, subformat) pair of the
dispatch table, dispatch returns a producer together with the content type
whose media type is the one the table lists, with the parameter
`; charset=utf-8` appended (for trace, provided the span matcher is built
successfully). -/
theorem claim_C7 (reg : Registry) (q : Values) (rc : RegexEngine) :
    FromRequest reg "/ps" q rc = .ok (.spansText, "text/plain; charset=utf-8") ∧
    FromRequest reg "/ps/text" q rc = .ok (.spansText, "text/plain; charset=utf-8") ∧
    FromRequest reg "/ps/dot" q rc = .ok (.spansDot, "text/plain; charset=utf-8") ∧
    FromRequest reg "/ps/json" q rc = .ok (.spansJSON, "application/json; charset=utf-8") ∧
    FromRequest reg "/funcs" q rc = .ok (.funcsText, "text/plain; charset=utf-8") ∧
    FromRequest reg "/funcs/text" q rc = .ok (.funcsText, "text/plain; charset=utf-8") ∧
    FromRequest reg "/funcs/dot" q rc = .ok (.funcsDot, "text/plain; charset=utf-8") ∧
    FromRequest reg "/funcs/json" q rc = .ok (.funcsJSON, "application/json; charset=utf-8") ∧
    FromRequest reg "/stats" q rc =
      .ok (.filteredStatsText (Values.Get q "prefix"), "text/plain; charset=utf-8") ∧
    FromRequest reg "/stats/text" q rc =
      .ok (.filteredStatsText (Values.Get q "prefix"), "text/plain; charset=utf-8") ∧
    FromRequest reg "/stats/json" q rc =
      .ok (.filteredStatsJSON (Values.Get q "prefix"), "application/json; charset=utf-8") ∧
    (spanMatcherOk reg rc q = true →
      (FromRequest reg "/trace/svg" q rc).map Prod.snd = .ok "image/svg+xml; charset=utf-8" ∧
      (FromRequest reg "/trace/json" q rc).map Prod.snd =
        .ok "application/json; charset=utf-8") := by
  refine ⟨rfl, rfl, rfl, rfl, rfl, rfl, rfl, rfl, rfl, rfl, rfl, ?_⟩
  intro hok
  rw [spanMatcherOk] at hok
  cases hm : buildSpanMatcher reg rc q with
  | error e =>
    rw [hm] at hok
    simp at hok
  | ok m =>
    constructor
    · simp [FromRequest, show (shift "/trace/svg").1 = "trace" from rfl,
        show (shift (shift "/trace/svg").2).1 = "svg" from rfl, hm, Except.map]
    · simp [FromRequest, show (shift "/trace/json").1 = "trace" from rfl,
        show (shift (shift "/trace/json").2).1 = "json" from rfl, hm, Except.map]

theorem claim_C7_witness :
    (FromRequest [] "/trace/svg" [("trace_id", "ff")] rcNone).map Prod.snd =
      .ok "image/svg+xml; charset=utf-8" ∧
    (FromRequest [] "/trace/json" [("trace_id", "ff")] rcNone).map Prod.snd =
      .ok "application/json; charset=utf-8" :=
  (claim_C7 [] [("trace_id", "ff")] rcNone).2.2.2.2.2.2.2.2.2.2.2 rfl

/-- Claim C9: dispatching `"ps"` and `"ps/text"` select the same producer
and content type (namely `SpansText` with `text/plain; charset=utf-8`),
and likewise the empty subformat defaults to `text` for `funcs` and
`stats`. -/
theorem claim_C9 (reg : Registry) (q : Values) (rc : RegexEngine) :
    FromRequest reg "ps" q rc = FromRequest reg "ps/text" q rc ∧
    FromRequest reg "ps" q rc = .ok (.spansText, "text/plain; charset=utf-8") ∧
    FromRequest reg "funcs" q rc = FromRequest reg "funcs/text" q rc ∧
    FromRequest reg "stats" q rc = FromRequest reg "stats/text" q rc :=
  ⟨rfl, rfl, rfl, rfl⟩

theorem runOnBuf_small {σ : Type} (ops : SinkOps σ) (prog : ProdProg) (s : σ) (buf : List Nat)
    (h : buf.length + (progWrites prog).length ≤ bufCap) :
    runOnBuf ops prog ⟨s, buf, none⟩ =
      (⟨s, buf ++ progWrites prog, none⟩, progOutcome prog) := by
  induction prog generalizing buf with
  | done => simp [runOnBuf, progWrites, progOutcome]
  | fail e => simp [runOnBuf, progWrites, progOutcome]
  | write bs k ih =>
    have hle : bs.length ≤ bufCap - buf.length := by
      simp only [progWrites, List.length_append] at h
      omega
    have hw : bufWrite ops ⟨s, buf, none⟩ bs = ⟨s, buf ++ bs, none⟩ := by
      simp [bufWrite, hle]
    have hrest : (buf ++ bs).length + (progWrites k).length ≤ bufCap := by
      simp only [progWrites, List.length_append] at h
      simp only [List.length_append]
      omega
    simp only [runOnBuf, hw]
    rw [ih (buf ++ bs) hrest]
    simp [progWrites, progOutcome, List.append_assoc]

/-- Claim C1 (amended): every successful dispatch wraps its producer in the
buffering decorator; provided the inner producer writes at most the buffer
capacity (4096 bytes) in total, an inner error reaches the caller with
zero bytes observed by the sink, and on inner success the buffer is
flushed only then, in one sink write whose error (if any) is the overall
error. (An inner producer that writes more than the capacity can leak
bytes to the sink before failing, so the unconditional zero-bytes claim
does not hold.) -/
theorem claim_C1 {σ : Type} (ops : SinkOps σ) (render : ProducerDesc → ProdProg)
    (reg : Registry) (path : String) (q : Values) (rc : RegexEngine)
    (d : ProducerDesc) (ct : String) (w : σ)
    (hdisp : FromRequest reg path q rc = .ok (d, ct))
    (hsize : (progWrites (render d)).length ≤ bufCap) :
    FromRequestBuffered ops render reg path q rc = .ok (buffered ops (render d), ct) ∧
    (∀ e, progOutcome (render d) = some e → buffered ops (render d) w = (w, some e)) ∧
    (progOutcome (render d) = none → progWrites (render d) ≠ [] →
      buffered ops (render d) w = ops.write w (progWrites (render d))) ∧
    (progOutcome (render d) = none → progWrites (render d) = [] →
      buffered ops (render d) w = (w, none)) := by
  have hr := runOnBuf_small ops (render d) w [] (by simpa using hsize)
  refine ⟨?_, ?_, ?_, ?_⟩
  · simp [FromRequestBuffered, hdisp]
  · intro e he
    rw [he] at hr
    simp [buffered, hr]
  · intro ho hne
    rw [ho] at hr
    have hie : (progWrites (render d)).isEmpty = false := by
      cases hh : progWrites (render d) with
      | nil => exact absurd hh hne
      | cons a l => rfl
    simp only [buffered, hr, List.nil_append]
    simp only [bufFlush, hie, Bool.false_eq_true, if_false]
    cases hwr : ops.write w (progWrites (render d)) with
    | mk s2 eo =>
      cases eo <;> simp
  · intro ho hemp
    rw [ho, hemp] at hr
    simp [buffered, hr, bufFlush]

theorem claim_C1_witness :
    buffered accSinkOps (ProdProg.write [1, 2, 3] (.fail "boom")) [] = ([], some "boom") := by
  have h := claim_C1 accSinkOps (fun _ => ProdProg.write [1, 2, 3] (.fail "boom"))
    [] "ps" [] rcNone .spansText "text/plain; charset=utf-8" [] rfl (by decide)
  exact h.2.1 "boom" rfl

theorem bufferedOverflow {bs : List Nat} (e : String) (h : bufCap < bs.length) :
    buffered accSinkOps (ProdProg.write bs (.fail e)) [] = (bs, some e) := by
  have hgt : ¬(bs.length ≤ bufCap) := by omega
  have hw : bufWrite accSinkOps ⟨[], [], none⟩ bs = ⟨bs, [], none⟩ := by
    simp [bufWrite, hgt, accSinkOps]
  simp [buffered, runOnBuf, hw]

theorem claim_C1_counterexample :
    FromRequest [] "ps" [] rcNone = .ok (.spansText, "text/plain; charset=utf-8") ∧
    buffered accSinkOps (ProdProg.write (List.replicate 4097 0) (.fail "boom")) [] =
      (List.replicate 4097 0, some "boom") ∧
    (List.replicate 4097 0 : List Nat) ≠ [] := by
  refine ⟨rfl, ?_, ?_⟩
  · exact bufferedOverflow "boom" (by rw [List.length_replicate]; decide)
  · intro hnil
    have hlen := congrArg List.length hnil
    rw [List.length_replicate] at hlen
    simp at hlen

end Monkit
